import Mathlib

/-!
# POLYNOCTON SDK — verification of the spec against the source

Shallow embedding of the POLYNOCTON/POLYCAVORA SDK (a TypeScript client
façade over Polymarket market data, orderbook streaming, trading and
relayer functionality) and proofs of the frozen claims about it.

The embedding follows the source files:
* `src/errors.ts` — the error taxonomy (`POLYNOCTONError`, `HttpError`);
* the façade class `POLYCAVORASDK` (constructor, `trading.init`,
  `relayer.init`, `getMarkets`, `getMarket`, `onOrderbook`).

The helper modules the façade imports (`utils/retry.ts`,
`providers/polymarket.ts`, `streams/orderbook.ts`, `constants.ts`,
`trading/index.ts`, `relayer/index.ts`, `types.ts`) are not part of the
available sources; where a claim depends on them the corresponding
definition is modelled from the spec, and its doc comment says so.
-/

/-! ## Error taxonomy (src/errors.ts) -/

/-- `POLYNOCTONError` from `src/errors.ts`: base error class for all SDK
errors, carrying a message, an optional machine-readable code and an
optional underlying cause.  The TypeScript `cause` has type `unknown`;
it is embedded as an opaque `Option String` payload. -/
structure POLYNOCTONError where
  message : String
  code : Option String
  cause : Option String
  deriving Repr, DecidableEq

/-- The constructor of `POLYNOCTONError`:
`constructor(message, code?, cause?)` stores the three arguments. -/
def mkPOLYNOCTONError (message : String) (code : Option String)
    (cause : Option String) : POLYNOCTONError :=
  { message := message, code := code, cause := cause }

/-- `HttpError` from `src/errors.ts`: subclass of `POLYNOCTONError` thrown
when an HTTP request fails.  Subclassing is embedded as a `base` field
holding the inherited `POLYNOCTONError` part, plus the extra numeric
`status`. -/
structure HttpError where
  base : POLYNOCTONError
  status : Nat
  deriving Repr, DecidableEq

/-- The constructor of `HttpError`:
`constructor(status, message, cause?)` calls
`super(message, "HTTP_ERROR", cause)` and stores `status`. -/
def mkHttpError (status : Nat) (message : String)
    (cause : Option String) : HttpError :=
  { base := mkPOLYNOCTONError message (some "HTTP_ERROR") cause
    status := status }

/-! ## Data model -/

/-- Modelled from the spec: the `Market` entity of `src/types.ts` (not under
the available sources) — an identifier plus metadata describing a
prediction-market instrument (question, outcomes, prices). -/
structure Market where
  id : String
  question : String
  outcomes : List String
  deriving Repr, DecidableEq

/-- Modelled from the spec: a price level of an order book side
(`src/types.ts` is not under the available sources). -/
structure PriceLevel where
  price : String
  size : String
  deriving Repr, DecidableEq

/-- Modelled from the spec: the `data` payload of an orderbook frame —
bids and asks of the book. -/
structure BookData where
  bids : List PriceLevel
  asks : List PriceLevel
  deriving Repr, DecidableEq

/-- Modelled from the spec: `OrderbookUpdate` from `src/types.ts` (not under
the available sources) — the tagged union
`\x7btype: "snapshot", data: \x7bbids, asks\x7d\x7d` or
`\x7btype: "delta", data: ...\x7d`. -/
inductive OrderbookUpdate where
  | snapshot (data : BookData)
  | delta (data : BookData)
  deriving Repr, DecidableEq

/-- Modelled from the spec: `TradingConfig` from `src/types.ts` (not under
the available sources) — chain id, authentication mode (backend private
key or frontend wallet signer) and optional builder attribution. -/
structure TradingConfig where
  chainId : Nat
  backendPrivateKey : Option String := none
  frontendSigner : Option String := none
  builderAddress : Option String := none
  deriving Repr, DecidableEq

/-- Modelled from the spec: `RelayerConfig` from `src/types.ts` (not under
the available sources) — chain id and the same credential modes. -/
structure RelayerConfig where
  chainId : Nat
  backendPrivateKey : Option String := none
  frontendSigner : Option String := none
  deriving Repr, DecidableEq

/-- `POLYCAVORAConfig`: the constructor input of the façade.  Every field
is optional (`cfg = \x7b\x7d` is legal). -/
structure POLYCAVORAConfig where
  metaBaseUrl : Option String := none
  wsBaseUrl : Option String := none
  debug : Option Bool := none
  trading : Option TradingConfig := none
  relayer : Option RelayerConfig := none
  deriving Repr, DecidableEq

/-- Modelled from the spec: the `DEFAULTS` record of `src/constants.ts`
(not under the available sources) — the production base URLs used when the
configuration does not override them.  The concrete URL strings live in
the missing file; only their existence matters to the claims. -/
structure Defaults where
  metaBaseUrl : String
  wsBaseUrl : String
  deriving Repr, DecidableEq

/-- Modelled from the spec: the default base-URL values (placeholders for
the concrete production endpoints in the missing `src/constants.ts`). -/
def DEFAULTS : Defaults :=
  { metaBaseUrl := "polymarket-production-meta-base-url"
    wsBaseUrl := "polymarket-production-ws-base-url" }

/-! ## The façade state (POLYCAVORASDK constructor) -/

/-- The state of a `POLYCAVORASDK` instance after construction: the two
resolved base URLs, the debug flag of the logger, and the captured
trading/relayer configurations. -/
structure POLYCAVORASDK where
  metaBaseUrl : String
  wsBaseUrl : String
  debug : Bool
  tradingConfig : Option TradingConfig
  relayerConfig : Option RelayerConfig
  deriving Repr, DecidableEq

/-- The `POLYCAVORASDK` constructor:
`metaBaseUrl = cfg.metaBaseUrl ?? DEFAULTS.metaBaseUrl`,
`wsBaseUrl = cfg.wsBaseUrl ?? DEFAULTS.wsBaseUrl`,
`log = createLogger(!!cfg.debug)`, and the trading/relayer configurations
are captured as given. -/
def POLYCAVORASDK.create (cfg : POLYCAVORAConfig) : POLYCAVORASDK :=
  { metaBaseUrl := cfg.metaBaseUrl.getD DEFAULTS.metaBaseUrl
    wsBaseUrl := cfg.wsBaseUrl.getD DEFAULTS.wsBaseUrl
    debug := cfg.debug.getD false
    tradingConfig := cfg.trading
    relayerConfig := cfg.relayer }

/-! ## Trading / relayer namespaces -/

/-- Modelled from the spec: the vendor trading client produced by
`createTradingClient` (`src/trading/index.ts` is not under the available
sources).  A client is a fresh object bound to the configuration it was
constructed from; JavaScript object identity is embedded as a
construction id drawn from an allocation counter. -/
structure TradingClient where
  config : TradingConfig
  constructionId : Nat
  deriving Repr, DecidableEq

/-- Modelled from the spec: `createTradingClient(cfg)` allocates a new
vendor trading client bound to `cfg`. -/
def createTradingClient (cfg : TradingConfig) (freshId : Nat) : TradingClient :=
  { config := cfg, constructionId := freshId }

/-- Modelled from the spec: the vendor relayer client produced by
`createRelayerClient` (`src/relayer/index.ts` is not under the available
sources). -/
structure RelayerClient where
  config : RelayerConfig
  constructionId : Nat
  deriving Repr, DecidableEq

/-- Modelled from the spec: `createRelayerClient(cfg)` allocates a new
vendor relayer client bound to `cfg`. -/
def createRelayerClient (cfg : RelayerConfig) (freshId : Nat) : RelayerClient :=
  { config := cfg, constructionId := freshId }

/-- The exact message of the error thrown by `trading.init()` when no
trading configuration was supplied (from the façade source; `\x27` and
`\x7b`/`\x7d` escape the apostrophes and braces of the original text). -/
def tradingNotConfiguredMsg : String :=
  "Trading is not configured. Please pass \x27trading\x27 config to POLYCAVORASDK constructor. Example: new POLYCAVORASDK(\x7b trading: \x7b chainId: 137, backend: \x7b privateKey: \x270x...\x27 \x7d \x7d \x7d)"

/-- The exact message of the error thrown by `relayer.init()` when no
relayer configuration was supplied (from the façade source). -/
def relayerNotConfiguredMsg : String :=
  "Relayer is not configured. Please pass \x27relayer\x27 config to POLYCAVORASDK constructor. Example: new POLYCAVORASDK(\x7b relayer: \x7b chainId: 137, backend: \x7b privateKey: \x270x...\x27 \x7d \x7d \x7d)\nNote: Relayer is for ADVANCED gasless transactions. Most users should use \x27trading\x27 instead."

/-- `sdk.trading.init()`: if no trading configuration was captured at
construction, throw synchronously (embedded as `Except.error` carrying the
message); otherwise return `createTradingClient(this.tradingConfig)`.
The allocation counter `freshId` threads JavaScript object allocation. -/
def POLYCAVORASDK.tradingInit (sdk : POLYCAVORASDK) (freshId : Nat) :
    Except String TradingClient × Nat :=
  match sdk.tradingConfig with
  | none => (Except.error tradingNotConfiguredMsg, freshId)
  | some cfg => (Except.ok (createTradingClient cfg freshId), freshId + 1)

/-- `sdk.relayer.init()`: if no relayer configuration was captured at
construction, throw synchronously; otherwise return
`createRelayerClient(this.relayerConfig)`. -/
def POLYCAVORASDK.relayerInit (sdk : POLYCAVORASDK) (freshId : Nat) :
    Except String RelayerClient × Nat :=
  match sdk.relayerConfig with
  | none => (Except.error relayerNotConfiguredMsg, freshId)
  | some cfg => (Except.ok (createRelayerClient cfg freshId), freshId + 1)

/-! ## HTTP retry layer

`withRetry` (`src/utils/retry.ts`) and the providers
`pmFetchMarkets` / `pmFetchMarket` (`src/providers/polymarket.ts`) are not
under the available sources; they are modelled from the spec.  The network
is embedded as an oracle giving each attempt its outcome. -/

/-- The outcome of one HTTP attempt: a successful value, an HTTP response
failure carrying a status and a body-derived message, or a network error. -/
inductive Attempt (α : Type) where
  | ok (value : α)
  | httpFailure (status : Nat) (message : String)
  | networkError (message : String)
  deriving Repr, DecidableEq

/-- Modelled from the spec: an attempt is transient (retryable) when it is
a network error or a server-error status (5xx); client errors such as 404
are not retryable. -/
def Attempt.retryable : Attempt α → Bool
  | .ok _ => false
  | .httpFailure status _ => 500 ≤ status
  | .networkError _ => true

/-- The final outcome `withRetry` surfaces to its caller: the successful
value, or the last error encountered as a typed `HttpError`
(`POLYNOCTONError` for a network error without a status). -/
inductive RetryOutcome (α : Type) where
  | ok (value : α)
  | httpErr (e : HttpError)
  | netErr (e : POLYNOCTONError)
  deriving Repr, DecidableEq

/-- How one attempt surfaces when it is not retried further: an HTTP
failure becomes an `HttpError` carrying the failing status and message. -/
def Attempt.surface : Attempt α → RetryOutcome α
  | .ok v => .ok v
  | .httpFailure status message => .httpErr (mkHttpError status message none)
  | .networkError message =>
      .netErr (mkPOLYNOCTONError message (some "NETWORK_ERROR") none)

/-- The result record of a `withRetry` run: the surfaced outcome, the
number of attempts actually made, and the backoff delays (in ms) slept
between consecutive attempts. -/
structure RetryRun (α : Type) where
  outcome : RetryOutcome α
  attempts : Nat
  delays : List Nat
  deriving Repr, DecidableEq

/-- Modelled from the spec: the retry loop from attempt index `i`, with
`remaining` further attempts allowed after the current one.  A transient
failure with attempts remaining sleeps `baseDelayMs * 2 ^ i` (exponential
backoff) and retries; anything else — success, a non-retryable status, or
exhaustion — surfaces at once. -/
def withRetryFrom (op : Nat → Attempt α) (baseDelayMs : Nat) (i : Nat) :
    Nat → RetryRun α
  | 0 => { outcome := (op i).surface, attempts := 1, delays := [] }
  | remaining + 1 =>
      let a := op i
      if a.retryable then
        let r := withRetryFrom op baseDelayMs (i + 1) remaining
        { outcome := r.outcome
          attempts := r.attempts + 1
          delays := baseDelayMs * 2 ^ i :: r.delays }
      else
        { outcome := a.surface, attempts := 1, delays := [] }

/-- Modelled from the spec: `withRetry(op)` (`src/utils/retry.ts`, not
under the available sources) — run `op`, retrying transient failures with
exponential backoff, making at most `maxAttempts` attempts. -/
def withRetry (op : Nat → Attempt α) (baseDelayMs maxAttempts : Nat) :
    RetryRun α :=
  withRetryFrom op baseDelayMs 0 (maxAttempts - 1)

/-- Modelled from the spec: the bounded attempt count of the retry policy
(the concrete constant lives in the missing `src/constants.ts`). -/
def RETRY_MAX_ATTEMPTS : Nat := 3

/-- Modelled from the spec: the base backoff delay of the retry policy
(the concrete constant lives in the missing `src/constants.ts`). -/
def RETRY_BASE_DELAY_MS : Nat := 250

/-- The network environment seen by the HTTP providers: for each requested
URL, the outcome of each successive attempt. -/
def HttpEnv (α : Type) : Type := String → Nat → Attempt α

/-- Modelled from the spec: `pmFetchMarkets(metaBaseUrl)`
(`src/providers/polymarket.ts`, not under the available sources) —
`GET \x7bmetaBaseUrl\x7d/markets`, one attempt against the environment. -/
def pmFetchMarkets (env : HttpEnv (List Market)) (metaBaseUrl : String) :
    Nat → Attempt (List Market) :=
  env (metaBaseUrl ++ "/markets")

/-- Modelled from the spec: `pmFetchMarket(metaBaseUrl, marketId)` —
`GET \x7bmetaBaseUrl\x7d/markets/\x7bid\x7d`, one attempt against the
environment. -/
def pmFetchMarket (env : HttpEnv Market) (metaBaseUrl marketId : String) :
    Nat → Attempt Market :=
  env (metaBaseUrl ++ "/markets/" ++ marketId)

/-- `sdk.getMarkets()`: `withRetry(() => pmFetchMarkets(this.metaBaseUrl))`
from the façade source. -/
def POLYCAVORASDK.getMarkets (sdk : POLYCAVORASDK)
    (env : HttpEnv (List Market)) : RetryRun (List Market) :=
  withRetry (pmFetchMarkets env sdk.metaBaseUrl)
    RETRY_BASE_DELAY_MS RETRY_MAX_ATTEMPTS

/-- `sdk.getMarket(marketId)`:
`withRetry(() => pmFetchMarket(this.metaBaseUrl, marketId))` from the
façade source. -/
def POLYCAVORASDK.getMarket (sdk : POLYCAVORASDK) (marketId : String)
    (env : HttpEnv Market) : RetryRun Market :=
  withRetry (pmFetchMarket env sdk.metaBaseUrl marketId)
    RETRY_BASE_DELAY_MS RETRY_MAX_ATTEMPTS

/-! ## Streaming layer

`pmSubscribeOrderbook` (`src/streams/orderbook.ts`) is not under the
available sources; the subscription state machine
`Connecting → Open → Closing → Closed` with snapshot/delta frame handling
and the unsubscribe contract are modelled from the spec. -/

/-- The connection states of one WebSocket subscription. -/
inductive ConnState where
  | Connecting
  | Open
  | Closing
  | Closed
  deriving Repr, DecidableEq

/-- An inbound WebSocket frame for an orderbook subscription, already
parsed from JSON: tagged `snapshot` (full book) or `delta` (incremental
change). -/
inductive Frame where
  | snapshotFrame (data : BookData)
  | deltaFrame (data : BookData)
  deriving Repr, DecidableEq

/-- Modelled from the spec: classification of an inbound frame into the
typed `OrderbookUpdate` handed to the caller callback. -/
def classifyFrame : Frame → OrderbookUpdate
  | .snapshotFrame data => .snapshot data
  | .deltaFrame data => .delta data

/-- The state of one orderbook subscription: the connection state and
whether the returned unsubscribe function has been invoked. -/
structure Subscription where
  state : ConnState
  unsubscribed : Bool
  deriving Repr, DecidableEq

/-- Modelled from the spec: a fresh subscription as returned by
`pmSubscribeOrderbook` — the socket starts out connecting and the
unsubscribe function has not been called. -/
def pmSubscribeOrderbook (wsBaseUrl marketId : String) : Subscription :=
  { state := .Connecting, unsubscribed := false }

/-- `sdk.onOrderbook(marketId, cb, opts?)`:
`pmSubscribeOrderbook(this.wsBaseUrl, marketId, cb, opts)` from the
façade source. -/
def POLYCAVORASDK.onOrderbook (sdk : POLYCAVORASDK) (marketId : String) :
    Subscription :=
  pmSubscribeOrderbook sdk.wsBaseUrl marketId

/-- Modelled from the spec: the function returned by the subscribe call —
it closes the underlying connection.  Calling it again finds the
connection already closed. -/
def Subscription.unsubscribe (s : Subscription) : Subscription :=
  { state := .Closed, unsubscribed := true }

/-- One event arriving on the subscription socket. -/
inductive WsEvent where
  | opened
  | message (f : Frame)
  | socketError (e : String)
  | socketClosed
  deriving Repr, DecidableEq

/-- One observable effect of handling an event: an invocation of the
caller callback with a typed update, or one of the lifecycle hooks. -/
inductive Emit where
  | callbackInvoked (u : OrderbookUpdate)
  | onOpenHook
  | onErrorHook (e : String)
  | onCloseHook
  deriving Repr, DecidableEq

/-- Modelled from the spec: handling of one socket event.  Once the
unsubscribe function has run, the connection is closed and no event is
delivered, so nothing fires.  Otherwise: `open` fires `onOpen` and moves
to `Open`; a frame is parsed, classified and delivered as one callback
invocation; a socket error fires `onError` and moves toward `Closed`;
close fires `onClose`. -/
def Subscription.handleEvent (s : Subscription) (ev : WsEvent) :
    Subscription × List Emit :=
  if s.unsubscribed then
    (s, [])
  else
    match ev with
    | .opened => ({ s with state := .Open }, [.onOpenHook])
    | .message f => (s, [.callbackInvoked (classifyFrame f)])
    | .socketError e => ({ s with state := .Closing }, [.onErrorHook e])
    | .socketClosed => ({ s with state := .Closed }, [.onCloseHook])

/-- Run a subscription over a sequence of socket events, collecting all
emitted effects in order. -/
def Subscription.runEvents (s : Subscription) :
    List WsEvent → Subscription × List Emit
  | [] => (s, [])
  | ev :: evs =>
      let (s1, out1) := s.handleEvent ev
      let (s2, out2) := s1.runEvents evs
      (s2, out1 ++ out2)

/-- The update-callback invocations among a list of emitted effects. -/
def callbackInvocations (emits : List Emit) : List OrderbookUpdate :=
  emits.filterMap fun e =>
    match e with
    | .callbackInvoked u => some u
    | _ => none

/-! ## Relayer polling (waitForTransaction)

`relayer.waitForTransaction` lives in `src/relayer/index.ts`, not under
the available sources; its polling loop is modelled from the spec:
repeatedly query the transaction status at a fixed interval until a
terminal state or a timeout error. -/

/-- Modelled from the spec: the status of a relayer transaction as seen by
one poll — still pending, or a terminal state (confirmed or failed). -/
inductive TxStatus where
  | pending
  | confirmed
  | failed
  deriving Repr, DecidableEq

/-- A status is terminal when the transaction is no longer pending. -/
def TxStatus.isTerminal : TxStatus → Bool
  | .pending => false
  | .confirmed => true
  | .failed => true

/-- The result of `waitForTransaction`: the terminal status reached, or a
timeout error after the bounded wait was exceeded. -/
inductive WaitResult where
  | terminal (st : TxStatus)
  | timeoutError
  deriving Repr, DecidableEq

/-- The number of polls the bounded wait duration allows: one poll every
`pollIntervalMs` until `maxWaitMs` is exceeded. -/
def maxPolls (pollIntervalMs maxWaitMs : Nat) : Nat :=
  maxWaitMs / pollIntervalMs + 1

/-- Modelled from the spec: the polling loop of `waitForTransaction`.
`query i` is the status the i-th poll observes; `fuel` is the number of
polls the bounded wait duration still allows.  Each poll either observes
a terminal status and stops, or sleeps the fixed interval and polls
again; when the allowance is exhausted a timeout error surfaces.  Returns
the result and the number of polls made. -/
def waitGo (query : Nat → TxStatus) : Nat → Nat → WaitResult × Nat
  | 0, i => (.timeoutError, i)
  | fuel + 1, i =>
      let st := query i
      if st.isTerminal then (.terminal st, i + 1)
      else waitGo query fuel (i + 1)

/-- Modelled from the spec: `relayer.waitForTransaction(txId)` — poll the
transaction status at the fixed interval `pollIntervalMs` until a
terminal state or until the bounded wait duration `maxWaitMs` is
exceeded, whichever comes first. -/
def waitForTransaction (query : Nat → TxStatus)
    (pollIntervalMs maxWaitMs : Nat) : WaitResult × Nat :=
  waitGo query (maxPolls pollIntervalMs maxWaitMs) 0

/-- The backoff schedule the retry loop sleeps when it makes `k` retries
starting from attempt index `i`: `base * 2 ^ i`, then `base * 2 ^ (i+1)`,
and so on — each delay double the one before. -/
def expectedDelays (baseDelayMs : Nat) : Nat → Nat → List Nat
  | _, 0 => []
  | i, k + 1 => baseDelayMs * 2 ^ i :: expectedDelays baseDelayMs (i + 1) k

/-! ## Helper lemmas -/

theorem expectedDelays_eq_range (b : Nat) :
    ∀ (k i : Nat),
      expectedDelays b i k = (List.range k).map (fun j => b * 2 ^ (i + j)) := by
  intro k
  induction k with
  | zero => intro i; simp [expectedDelays]
  | succ n ih =>
      intro i
      simp only [expectedDelays, ih (i + 1), List.range_succ_eq_map,
        List.map_cons, List.map_map]
      refine congrArg₂ _ (by simp) ?_
      refine List.map_congr_left fun j _ => ?_
      have hj : i + 1 + j = i + (j + 1) := by omega
      simp [Function.comp, hj]

theorem withRetryFrom_attempts_le {α : Type} (op : Nat → Attempt α)
    (b : Nat) :
    ∀ (rem i : Nat), (withRetryFrom op b i rem).attempts ≤ rem + 1 := by
  intro rem
  induction rem with
  | zero => intro i; simp [withRetryFrom]
  | succ n ih =>
      intro i
      simp only [withRetryFrom]
      by_cases h : (op i).retryable
      · simp only [h, if_true]
        exact Nat.add_le_add_right (ih (i + 1)) 1
      · simp only [h, if_false]
        exact Nat.le_add_left 1 (n + 1)

theorem withRetryFrom_nonRetryable {α : Type} (op : Nat → Attempt α)
    (b : Nat) (rem i : Nat) (h : (op i).retryable = false) :
    withRetryFrom op b i rem =
      { outcome := (op i).surface, attempts := 1, delays := [] } := by
  cases rem with
  | zero => simp [withRetryFrom]
  | succ n => simp [withRetryFrom, h]

theorem withRetryFrom_success {α : Type} (op : Nat → Attempt α) (b : Nat) :
    ∀ (k i rem : Nat) (v : α), k ≤ rem →
      (∀ j, j < k → (op (i + j)).retryable = true) →
      op (i + k) = .ok v →
      withRetryFrom op b i rem =
        { outcome := .ok v, attempts := k + 1,
          delays := expectedDelays b i k } := by
  intro k
  induction k with
  | zero =>
      intro i rem v _ _ hok
      simp only [Nat.add_zero] at hok
      have hnr : (op i).retryable = false := by
        rw [hok]; rfl
      rw [withRetryFrom_nonRetryable op b rem i hnr, hok]
      rfl
  | succ n ih =>
      intro i rem v hle htrans hok
      cases rem with
      | zero => exact absurd hle (by omega)
      | succ m =>
          have hr : (op i).retryable = true := by
            have := htrans 0 (Nat.succ_pos n)
            simpa using this
          have hrec := ih (i + 1) m v (by omega)
            (fun j hj => by
              have := htrans (j + 1) (by omega)
              simpa [Nat.add_assoc, Nat.add_comm, Nat.add_left_comm]
                using this)
            (by
              have : i + 1 + n = i + (n + 1) := by omega
              rw [this]; exact hok)
          simp only [withRetryFrom, hr, if_true, hrec, expectedDelays]

theorem subscription_runEvents_unsubscribed (s : Subscription)
    (h : s.unsubscribed = true) :
    ∀ evs : List WsEvent, s.runEvents evs = (s, []) := by
  intro evs
  induction evs with
  | nil => rfl
  | cons ev evs ih =>
      simp [Subscription.runEvents, Subscription.handleEvent, h, ih]

theorem subscription_handleEvent_message (s : Subscription)
    (h : s.unsubscribed = false) (f : Frame) :
    s.handleEvent (.message f) = (s, [.callbackInvoked (classifyFrame f)]) := by
  simp [Subscription.handleEvent, h]

theorem subscription_runEvents_messages (s : Subscription)
    (h : s.unsubscribed = false) :
    ∀ frames : List Frame,
      s.runEvents (frames.map WsEvent.message) =
        (s, frames.map (fun f => Emit.callbackInvoked (classifyFrame f))) := by
  intro frames
  induction frames with
  | nil => rfl
  | cons f fs ih =>
      simp only [List.map_cons, Subscription.runEvents,
        subscription_handleEvent_message s h f, ih, List.singleton_append]

theorem waitGo_polls_le (query : Nat → TxStatus) :
    ∀ (fuel i : Nat), (waitGo query fuel i).2 ≤ i + fuel := by
  intro fuel
  induction fuel with
  | zero => intro i; simp [waitGo]
  | succ n ih =>
      intro i
      cases hq : (query i).isTerminal
      · have h2 := ih (i + 1)
        simp [waitGo, hq]
        omega
      · simp [waitGo, hq]

theorem waitGo_timeout (query : Nat → TxStatus) :
    ∀ (fuel i : Nat),
      (∀ j, i ≤ j → j < i + fuel → (query j).isTerminal = false) →
      waitGo query fuel i = (.timeoutError, i + fuel) := by
  intro fuel
  induction fuel with
  | zero => intro i _; simp [waitGo]
  | succ n ih =>
      intro i hall
      have h0 : (query i).isTerminal = false := hall i (Nat.le_refl i) (by omega)
      have hrec := ih (i + 1) (fun j hj1 hj2 => hall j (by omega) (by omega))
      have harith : i + 1 + n = i + (n + 1) := by omega
      simp [waitGo, h0, hrec, harith]

theorem waitGo_terminal (query : Nat → TxStatus) :
    ∀ (k fuel i : Nat), k < fuel →
      (∀ j, j < k → (query (i + j)).isTerminal = false) →
      (query (i + k)).isTerminal = true →
      waitGo query fuel i = (.terminal (query (i + k)), i + k + 1) := by
  intro k
  induction k with
  | zero =>
      intro fuel i hk _ hterm
      cases fuel with
      | zero => omega
      | succ n =>
          simp only [Nat.add_zero] at hterm
          simp [waitGo, hterm]
  | succ n ih =>
      intro fuel i hk hbefore hterm
      cases fuel with
      | zero => omega
      | succ m =>
          have h0 : (query i).isTerminal = false := by
            have := hbefore 0 (Nat.succ_pos n)
            simpa using this
          have hrec := ih m (i + 1) (by omega)
            (fun j hj => by
              have := hbefore (j + 1) (by omega)
              simpa [Nat.add_assoc, Nat.add_comm, Nat.add_left_comm]
                using this)
            (by
              have : i + 1 + n = i + (n + 1) := by omega
              rw [this]; exact hterm)
          have harith : i + 1 + n = i + (n + 1) := by omega
          simp [waitGo, h0, hrec, harith]

/-! ## Claim theorems -/

/-- Claim C7: the error taxonomy is two-level — the base SDK error type
`POLYNOCTONError` carries a message, an optional machine-readable code and
an optional underlying cause, exactly as given to its constructor; the
specialized `HttpError` additionally carries the numeric response status
code of the failing request, and its inherited part carries the message
and cause given to its constructor. -/
theorem errorTaxonomy_twoLevel :
    (∀ (m : String) (c ca : Option String),
      (mkPOLYNOCTONError m c ca).message = m ∧
      (mkPOLYNOCTONError m c ca).code = c ∧
      (mkPOLYNOCTONError m c ca).cause = ca) ∧
    (∀ (st : Nat) (m : String) (ca : Option String),
      (mkHttpError st m ca).status = st ∧
      (mkHttpError st m ca).base.message = m ∧
      (mkHttpError st m ca).base.cause = ca) :=
  ⟨fun _ _ _ => ⟨rfl, rfl, rfl⟩, fun _ _ _ => ⟨rfl, rfl, rfl⟩⟩

/-- Claim C8: every `HttpError`, for any status, message and cause, is an
instance of the base SDK error type — its inherited part is exactly the
`POLYNOCTONError` built by the base constructor — and its code field is
always the fixed string `"HTTP_ERROR"`. -/
theorem httpError_isBase_codeFixed :
    ∀ (st : Nat) (m : String) (ca : Option String),
      (mkHttpError st m ca).base =
        mkPOLYNOCTONError m (some "HTTP_ERROR") ca ∧
      (mkHttpError st m ca).base.code = some "HTTP_ERROR" :=
  fun _ _ _ => ⟨rfl, rfl⟩

/-- Claim C4: on an SDK constructed without trading configuration,
`trading.init()` fails synchronously — the error is the immediate result
of the `init()` call itself — with the configuration error naming the
missing trading setup; likewise `relayer.init()` fails synchronously with
the configuration error naming the missing relayer setup.  When the
corresponding configuration is present, `init()` returns a client built
from it. -/
theorem init_configGating :
    ∀ (cfg : POLYCAVORAConfig) (n : Nat),
      (cfg.trading = none →
        ((POLYCAVORASDK.create cfg).tradingInit n).1 =
          .error tradingNotConfiguredMsg) ∧
      (∀ t, cfg.trading = some t →
        ((POLYCAVORASDK.create cfg).tradingInit n).1 =
          .ok (createTradingClient t n)) ∧
      (cfg.relayer = none →
        ((POLYCAVORASDK.create cfg).relayerInit n).1 =
          .error relayerNotConfiguredMsg) ∧
      (∀ r, cfg.relayer = some r →
        ((POLYCAVORASDK.create cfg).relayerInit n).1 =
          .ok (createRelayerClient r n)) := by
  intro cfg n
  refine ⟨fun h => ?_, fun t h => ?_, fun h => ?_, fun r h => ?_⟩
  · simp [POLYCAVORASDK.create, POLYCAVORASDK.tradingInit, h]
  · simp [POLYCAVORASDK.create, POLYCAVORASDK.tradingInit, h]
  · simp [POLYCAVORASDK.create, POLYCAVORASDK.relayerInit, h]
  · simp [POLYCAVORASDK.create, POLYCAVORASDK.relayerInit, h]

/-- Witness for C4 at concrete inputs: an empty configuration makes both
`init()` calls fail with their configuration errors, and supplying the
configurations makes both return clients. -/
theorem init_configGating_witness :
    ((POLYCAVORASDK.create {}).tradingInit 0).1 =
      .error tradingNotConfiguredMsg ∧
    ((POLYCAVORASDK.create {}).relayerInit 0).1 =
      .error relayerNotConfiguredMsg ∧
    ((POLYCAVORASDK.create { trading := some { chainId := 137 } }).tradingInit
        0).1 = .ok (createTradingClient { chainId := 137 } 0) ∧
    ((POLYCAVORASDK.create { relayer := some { chainId := 137 } }).relayerInit
        0).1 = .ok (createRelayerClient { chainId := 137 } 0) :=
  ⟨(init_configGating {} 0).1 rfl,
   (init_configGating {} 0).2.2.1 rfl,
   (init_configGating { trading := some { chainId := 137 } } 0).2.1
     { chainId := 137 } rfl,
   (init_configGating { relayer := some { chainId := 137 } } 0).2.2.2
     { chainId := 137 } rfl⟩

/-- Claim C9: on a configured SDK instance, each call to `trading.init()`
(respectively `relayer.init()`) constructs and returns a fresh client from
the configuration captured at construction time; the result is not
cached, so two calls on the same instance produce two independently
constructed clients (distinct construction identities) from the same
configuration. -/
theorem init_freshClientPerCall :
    ∀ (sdk : POLYCAVORASDK) (n : Nat),
      (∀ t, sdk.tradingConfig = some t →
        (sdk.tradingInit n).1 = .ok (createTradingClient t n) ∧
        (sdk.tradingInit (sdk.tradingInit n).2).1 =
          .ok (createTradingClient t (n + 1)) ∧
        (createTradingClient t n).config =
          (createTradingClient t (n + 1)).config ∧
        (createTradingClient t n).constructionId ≠
          (createTradingClient t (n + 1)).constructionId) ∧
      (∀ r, sdk.relayerConfig = some r →
        (sdk.relayerInit n).1 = .ok (createRelayerClient r n) ∧
        (sdk.relayerInit (sdk.relayerInit n).2).1 =
          .ok (createRelayerClient r (n + 1)) ∧
        (createRelayerClient r n).config =
          (createRelayerClient r (n + 1)).config ∧
        (createRelayerClient r n).constructionId ≠
          (createRelayerClient r (n + 1)).constructionId) := by
  intro sdk n
  constructor
  · intro t h
    refine ⟨?_, ?_, rfl, ?_⟩
    · simp [POLYCAVORASDK.tradingInit, h]
    · simp [POLYCAVORASDK.tradingInit, h]
    · simp [createTradingClient]
  · intro r h
    refine ⟨?_, ?_, rfl, ?_⟩
    · simp [POLYCAVORASDK.relayerInit, h]
    · simp [POLYCAVORASDK.relayerInit, h]
    · simp [createRelayerClient]

/-- Witness for C9 at a concrete configured SDK: the first and second
`trading.init()` calls return distinct fresh clients bound to the same
captured configuration. -/
theorem init_freshClientPerCall_witness :
    ((POLYCAVORASDK.create
        { trading := some { chainId := 137 }
          relayer := some { chainId := 137 } }).tradingInit 0).1 =
      .ok (createTradingClient { chainId := 137 } 0) ∧
    (createTradingClient { chainId := 137 } 0).constructionId ≠
      (createTradingClient { chainId := 137 } 1).constructionId ∧
    ((POLYCAVORASDK.create
        { trading := some { chainId := 137 }
          relayer := some { chainId := 137 } }).relayerInit 0).1 =
      .ok (createRelayerClient { chainId := 137 } 0) :=
  ⟨((init_freshClientPerCall
      (POLYCAVORASDK.create
        { trading := some { chainId := 137 }
          relayer := some { chainId := 137 } }) 0).1
      { chainId := 137 } rfl).1,
   ((init_freshClientPerCall
      (POLYCAVORASDK.create
        { trading := some { chainId := 137 }
          relayer := some { chainId := 137 } }) 0).1
      { chainId := 137 } rfl).2.2.2,
   ((init_freshClientPerCall
      (POLYCAVORASDK.create
        { trading := some { chainId := 137 }
          relayer := some { chainId := 137 } }) 0).2
      { chainId := 137 } rfl).1⟩

/-- Claim C10: the SDK constructor accepts an entirely empty configuration
object; construction then uses the default base URLs and captures no
trading/relayer configuration, and `getMarkets`, `getMarket` and
`onOrderbook` behave identically whatever trading or relayer
configuration is present. -/
theorem emptyConfig_construction :
    (POLYCAVORASDK.create {}).metaBaseUrl = DEFAULTS.metaBaseUrl ∧
    (POLYCAVORASDK.create {}).wsBaseUrl = DEFAULTS.wsBaseUrl ∧
    (POLYCAVORASDK.create {}).tradingConfig = none ∧
    (POLYCAVORASDK.create {}).relayerConfig = none ∧
    (∀ (cfg : POLYCAVORAConfig) (t : Option TradingConfig)
        (r : Option RelayerConfig) (env : HttpEnv (List Market)),
      (POLYCAVORASDK.create
          { cfg with trading := t, relayer := r }).getMarkets env =
        (POLYCAVORASDK.create cfg).getMarkets env) ∧
    (∀ (cfg : POLYCAVORAConfig) (t : Option TradingConfig)
        (r : Option RelayerConfig) (mId : String) (env : HttpEnv Market),
      (POLYCAVORASDK.create
          { cfg with trading := t, relayer := r }).getMarket mId env =
        (POLYCAVORASDK.create cfg).getMarket mId env) ∧
    (∀ (cfg : POLYCAVORAConfig) (t : Option TradingConfig)
        (r : Option RelayerConfig) (mId : String),
      (POLYCAVORASDK.create
          { cfg with trading := t, relayer := r }).onOrderbook mId =
        (POLYCAVORASDK.create cfg).onOrderbook mId) :=
  ⟨rfl, rfl, rfl, rfl, fun _ _ _ _ => rfl, fun _ _ _ _ _ => rfl,
   fun _ _ _ _ => rfl⟩

/-- Claim C1: after the unsubscribe function returned by a subscription
runs, no sequence of further socket events produces any update-callback
invocation; unsubscribing is idempotent; and the guarantee also holds
when unsubscribe runs on a subscription fresh from `onOrderbook`, before
the connection ever reaches `Open`. -/
theorem unsubscribe_noFurtherCallbacks :
    (∀ (s : Subscription) (evs : List WsEvent),
      callbackInvocations (s.unsubscribe.runEvents evs).2 = []) ∧
    (∀ s : Subscription, s.unsubscribe.unsubscribe = s.unsubscribe) ∧
    (∀ (sdk : POLYCAVORASDK) (mId : String),
      (sdk.onOrderbook mId).state = .Connecting ∧
      ∀ evs : List WsEvent,
        callbackInvocations
          ((sdk.onOrderbook mId).unsubscribe.runEvents evs).2 = []) := by
  refine ⟨fun s evs => ?_, fun s => rfl, fun sdk mId => ⟨rfl, fun evs => ?_⟩⟩
  · rw [subscription_runEvents_unsubscribed s.unsubscribe rfl evs]
    rfl
  · rw [subscription_runEvents_unsubscribed
      (sdk.onOrderbook mId).unsubscribe rfl evs]
    rfl

/-- Claim C5: on an active subscription, every inbound frame is parsed,
classified as snapshot or delta, and delivered as exactly one typed
callback invocation, in arrival order; in particular a snapshot frame
followed by two delta frames yields exactly three callback invocations
with payloads matching the frames, in that order. -/
theorem frames_classified_deliveredInOrder :
    ∀ s : Subscription, s.unsubscribed = false →
      (∀ frames : List Frame,
        callbackInvocations
            (s.runEvents (frames.map WsEvent.message)).2 =
          frames.map classifyFrame) ∧
      (∀ b d1 d2 : BookData,
        callbackInvocations
            (s.runEvents
              [.message (.snapshotFrame b), .message (.deltaFrame d1),
               .message (.deltaFrame d2)]).2 =
          [.snapshot b, .delta d1, .delta d2]) := by
  intro s h
  have hgen : ∀ frames : List Frame,
      callbackInvocations (s.runEvents (frames.map WsEvent.message)).2 =
        frames.map classifyFrame := by
    intro frames
    rw [subscription_runEvents_messages s h frames]
    induction frames with
    | nil => rfl
    | cons f fs ih => simp [callbackInvocations] at ih ⊢; exact ih
  refine ⟨hgen, fun b d1 d2 => ?_⟩
  have := hgen [.snapshotFrame b, .deltaFrame d1, .deltaFrame d2]
  simpa [classifyFrame] using this

/-- Witness for C5 at a concrete active subscription and concrete frames:
a snapshot then two deltas produce exactly the three matching typed
callback invocations. -/
theorem frames_classified_deliveredInOrder_witness :
    callbackInvocations
        ((pmSubscribeOrderbook "ws" "m").runEvents
          [.message (.snapshotFrame { bids := [], asks := [] }),
           .message (.deltaFrame { bids := [{ price := "0.5", size := "10" }], asks := [] }),
           .message (.deltaFrame { bids := [], asks := [{ price := "0.6", size := "4" }] })]).2 =
      [.snapshot { bids := [], asks := [] },
       .delta { bids := [{ price := "0.5", size := "10" }], asks := [] },
       .delta { bids := [], asks := [{ price := "0.6", size := "4" }] }] :=
  (frames_classified_deliveredInOrder (pmSubscribeOrderbook "ws" "m") rfl).2
    { bids := [], asks := [] }
    { bids := [{ price := "0.5", size := "10" }], asks := [] }
    { bids := [], asks := [{ price := "0.6", size := "4" }] }

/-- Claim C2: `getMarkets` and `getMarket` run under the retry policy —
the number of attempts never exceeds the configured maximum, and when the
attempts before some attempt `k` within the bound all fail transiently
and attempt `k` succeeds, the call returns that success after `k + 1`
attempts, having slept the exponential-backoff schedule. -/
theorem getMarkets_getMarket_retryPolicy :
    (∀ (sdk : POLYCAVORASDK) (env : HttpEnv (List Market)),
      (sdk.getMarkets env).attempts ≤ RETRY_MAX_ATTEMPTS) ∧
    (∀ (sdk : POLYCAVORASDK) (mId : String) (env : HttpEnv Market),
      (sdk.getMarket mId env).attempts ≤ RETRY_MAX_ATTEMPTS) ∧
    (∀ (sdk : POLYCAVORASDK) (env : HttpEnv (List Market)) (k : Nat)
        (v : List Market),
      k < RETRY_MAX_ATTEMPTS →
      (∀ j, j < k →
        (pmFetchMarkets env sdk.metaBaseUrl j).retryable = true) →
      pmFetchMarkets env sdk.metaBaseUrl k = .ok v →
      sdk.getMarkets env =
        { outcome := .ok v, attempts := k + 1,
          delays :=
            (List.range k).map fun j => RETRY_BASE_DELAY_MS * 2 ^ j }) ∧
    (∀ (sdk : POLYCAVORASDK) (mId : String) (env : HttpEnv Market)
        (k : Nat) (v : Market),
      k < RETRY_MAX_ATTEMPTS →
      (∀ j, j < k →
        (pmFetchMarket env sdk.metaBaseUrl mId j).retryable = true) →
      pmFetchMarket env sdk.metaBaseUrl mId k = .ok v →
      sdk.getMarket mId env =
        { outcome := .ok v, attempts := k + 1,
          delays :=
            (List.range k).map fun j => RETRY_BASE_DELAY_MS * 2 ^ j }) := by
  refine ⟨fun sdk env => ?_, fun sdk mId env => ?_,
    fun sdk env k v hk htrans hok => ?_,
    fun sdk mId env k v hk htrans hok => ?_⟩
  · have h := withRetryFrom_attempts_le (pmFetchMarkets env sdk.metaBaseUrl)
      RETRY_BASE_DELAY_MS 2 0
    simpa [POLYCAVORASDK.getMarkets, withRetry, RETRY_MAX_ATTEMPTS] using h
  · have h := withRetryFrom_attempts_le
      (pmFetchMarket env sdk.metaBaseUrl mId) RETRY_BASE_DELAY_MS 2 0
    simpa [POLYCAVORASDK.getMarket, withRetry, RETRY_MAX_ATTEMPTS] using h
  · have h1 := withRetryFrom_success (pmFetchMarkets env sdk.metaBaseUrl)
      RETRY_BASE_DELAY_MS k 0 2 v (by
        simp only [RETRY_MAX_ATTEMPTS] at hk; omega)
      (fun j hj => by simpa using htrans j hj)
      (by simpa using hok)
    have h2 := expectedDelays_eq_range RETRY_BASE_DELAY_MS k 0
    simp only [Nat.zero_add] at h2
    have h3 : sdk.getMarkets env =
        withRetryFrom (pmFetchMarkets env sdk.metaBaseUrl)
          RETRY_BASE_DELAY_MS 0 2 := rfl
    rw [h3, h1, h2]
  · have h1 := withRetryFrom_success (pmFetchMarket env sdk.metaBaseUrl mId)
      RETRY_BASE_DELAY_MS k 0 2 v (by
        simp only [RETRY_MAX_ATTEMPTS] at hk; omega)
      (fun j hj => by simpa using htrans j hj)
      (by simpa using hok)
    have h2 := expectedDelays_eq_range RETRY_BASE_DELAY_MS k 0
    simp only [Nat.zero_add] at h2
    have h3 : sdk.getMarket mId env =
        withRetryFrom (pmFetchMarket env sdk.metaBaseUrl mId)
          RETRY_BASE_DELAY_MS 0 2 := rfl
    rw [h3, h1, h2]

/-- Witness for C2 at concrete inputs: with two simulated 500 responses
followed by a 200, `getMarkets` succeeds on the third attempt after
delays of 250 ms and 500 ms, and `getMarket` succeeds on the second
attempt after one 250 ms delay. -/
theorem getMarkets_getMarket_retryPolicy_witness :
    (POLYCAVORASDK.create {}).getMarkets
        (fun _ j => if j < 2 then .httpFailure 500 "server error"
          else .ok []) =
      { outcome := .ok [], attempts := 3, delays := [250, 500] } ∧
    (POLYCAVORASDK.create {}).getMarket "m-1"
        (fun _ j => if j < 1 then .networkError "refused"
          else .ok { id := "m-1", question := "q", outcomes := [] }) =
      { outcome := .ok { id := "m-1", question := "q", outcomes := [] },
        attempts := 2, delays := [250] } := by
  constructor
  · have h := getMarkets_getMarket_retryPolicy.2.2.1
      (POLYCAVORASDK.create {})
      (fun _ j => if j < 2 then .httpFailure 500 "server error"
        else .ok []) 2 []
      (by decide) (by decide) (by decide)
    simpa using h
  · have h := getMarkets_getMarket_retryPolicy.2.2.2
      (POLYCAVORASDK.create {}) "m-1"
      (fun _ j => if j < 1 then .networkError "refused"
        else .ok { id := "m-1", question := "q", outcomes := [] }) 1
      { id := "m-1", question := "q", outcomes := [] }
      (by decide) (by decide) (by decide)
    simpa using h

/-- Claim C3: when the first attempt of `getMarkets` or `getMarket`
receives a non-retryable client-error HTTP status (4xx, e.g. 404), no
retry attempt is made — exactly one attempt happens, no backoff is slept
— and the call fails immediately with an `HttpError` carrying that
status code. -/
theorem nonRetryable_failsImmediately :
    (∀ (sdk : POLYCAVORASDK) (env : HttpEnv (List Market)) (status : Nat)
        (msg : String),
      400 ≤ status → status < 500 →
      pmFetchMarkets env sdk.metaBaseUrl 0 = .httpFailure status msg →
      sdk.getMarkets env =
        { outcome := .httpErr (mkHttpError status msg none),
          attempts := 1, delays := [] }) ∧
    (∀ (sdk : POLYCAVORASDK) (mId : String) (env : HttpEnv Market)
        (status : Nat) (msg : String),
      400 ≤ status → status < 500 →
      pmFetchMarket env sdk.metaBaseUrl mId 0 = .httpFailure status msg →
      sdk.getMarket mId env =
        { outcome := .httpErr (mkHttpError status msg none),
          attempts := 1, delays := [] }) := by
  constructor
  · intro sdk env status msg _ hlt hfail
    have hnr : (pmFetchMarkets env sdk.metaBaseUrl 0).retryable = false := by
      rw [hfail]
      simp [Attempt.retryable]
      omega
    have h1 := withRetryFrom_nonRetryable (pmFetchMarkets env sdk.metaBaseUrl)
      RETRY_BASE_DELAY_MS 2 0 hnr
    have h3 : sdk.getMarkets env =
        withRetryFrom (pmFetchMarkets env sdk.metaBaseUrl)
          RETRY_BASE_DELAY_MS 0 2 := rfl
    rw [h3, h1, hfail]
    rfl
  · intro sdk mId env status msg _ hlt hfail
    have hnr : (pmFetchMarket env sdk.metaBaseUrl mId 0).retryable = false := by
      rw [hfail]
      simp [Attempt.retryable]
      omega
    have h1 := withRetryFrom_nonRetryable
      (pmFetchMarket env sdk.metaBaseUrl mId) RETRY_BASE_DELAY_MS 2 0 hnr
    have h3 : sdk.getMarket mId env =
        withRetryFrom (pmFetchMarket env sdk.metaBaseUrl mId)
          RETRY_BASE_DELAY_MS 0 2 := rfl
    rw [h3, h1, hfail]
    rfl

/-- Witness for C3 at concrete inputs: a 404 response makes `getMarkets`
fail on the very first attempt, with no backoff, carrying status 404. -/
theorem nonRetryable_failsImmediately_witness :
    (POLYCAVORASDK.create {}).getMarkets
        (fun _ _ => .httpFailure 404 "not found") =
      { outcome := .httpErr (mkHttpError 404 "not found" none),
        attempts := 1, delays := [] } ∧
    (POLYCAVORASDK.create {}).getMarket "m-1"
        (fun _ _ => .httpFailure 404 "not found") =
      { outcome := .httpErr (mkHttpError 404 "not found" none),
        attempts := 1, delays := [] } :=
  ⟨nonRetryable_failsImmediately.1 (POLYCAVORASDK.create {})
      (fun _ _ => .httpFailure 404 "not found") 404 "not found"
      (by decide) (by decide) rfl,
   nonRetryable_failsImmediately.2 (POLYCAVORASDK.create {}) "m-1"
      (fun _ _ => .httpFailure 404 "not found") 404 "not found"
      (by decide) (by decide) rfl⟩

/-- Claim C6: the `waitForTransaction` polling loop is bounded — the
number of polls never exceeds the allowance derived from the bounded wait
duration and the fixed interval; if no poll within the allowance observes
a terminal status, the loop stops with a timeout error; and as soon as a
poll observes a terminal status within the allowance, the loop stops
there with that terminal state.  It never polls forever. -/
theorem waitForTransaction_terminates :
    ∀ (query : Nat → TxStatus) (pollIntervalMs maxWaitMs : Nat),
      ((waitForTransaction query pollIntervalMs maxWaitMs).2 ≤
        maxPolls pollIntervalMs maxWaitMs) ∧
      ((∀ j, j < maxPolls pollIntervalMs maxWaitMs →
          (query j).isTerminal = false) →
        waitForTransaction query pollIntervalMs maxWaitMs =
          (.timeoutError, maxPolls pollIntervalMs maxWaitMs)) ∧
      (∀ k, k < maxPolls pollIntervalMs maxWaitMs →
        (∀ j, j < k → (query j).isTerminal = false) →
        (query k).isTerminal = true →
        waitForTransaction query pollIntervalMs maxWaitMs =
          (.terminal (query k), k + 1)) := by
  intro query pollIntervalMs maxWaitMs
  refine ⟨?_, fun hall => ?_, fun k hk hbefore hterm => ?_⟩
  · have h := waitGo_polls_le query (maxPolls pollIntervalMs maxWaitMs) 0
    simpa [waitForTransaction] using h
  · have h := waitGo_timeout query (maxPolls pollIntervalMs maxWaitMs) 0
      (fun j _ hj2 => hall j (by omega))
    simpa [waitForTransaction] using h
  · have h := waitGo_terminal query k (maxPolls pollIntervalMs maxWaitMs) 0
      hk (fun j hj => by simpa using hbefore j hj)
      (by simpa using hterm)
    simpa [waitForTransaction] using h

/-- Witness for C6 at concrete inputs: with a 100 ms interval and a
250 ms bound (three polls allowed), a transaction confirmed at the second
poll stops the loop there with the terminal state, and a transaction that
stays pending stops the loop with a timeout error after three polls. -/
theorem waitForTransaction_terminates_witness :
    waitForTransaction (fun j => if j = 1 then .confirmed else .pending)
        100 250 = (.terminal .confirmed, 2) ∧
    waitForTransaction (fun _ => .pending) 100 250 =
      (.timeoutError, 3) := by
  constructor
  · have h := (waitForTransaction_terminates
      (fun j => if j = 1 then .confirmed else .pending) 100 250).2.2 1
      (by decide) (by decide) (by decide)
    simpa using h
  · have h := (waitForTransaction_terminates
      (fun _ => .pending) 100 250).2.1 (by decide)
    simpa using h
